import Mathlib

/-
Verification of the ABCD ray-tracing module (src/ABCD.py).

The embedding models the numeric fields of Ray and Matrix as rationals.
The Python float value +Inf, used as the default aperture diameter to mean
"no aperture", is modelled by the value none of Option, so that the
comparison abs y > inf / 2 (always false for a finite y) is modelled by the
none branch returning the incoming blocked flag unchanged.
Python exceptions (ZeroDivisionError from the linear-spacing divisor) are
modelled with Except; returning the Python value None from the overloaded
multiply is modelled with an explicit result constructor.
-/

namespace ABCD

/-- Error values that Python code can raise. The source never defines an
UnsupportedOperandError nor a DegenerateFanError; the constructors exist here
so statements about them can be written and refuted against the code. -/
inductive PyError where
  | zeroDivisionError
  | unsupportedOperandError
  | degenerateFanError
deriving DecidableEq

/-- Ray state: height y, angle theta, axial position z, blocked flag. -/
structure Ray where
  y : ℚ
  theta : ℚ
  z : ℚ
  isBlocked : Bool
deriving DecidableEq

/-- Element: coefficients A, B, C, D, physical length L, aperture diameter.
none models the Python default float +Inf, meaning no aperture. -/
structure Matrix where
  A : ℚ
  B : ℚ
  C : ℚ
  D : ℚ
  L : ℚ
  apertureDiameter : Option ℚ
deriving DecidableEq

/-- Matrix.mul_matrix from the source: 2 by 2 product with self on the left,
lengths added, and the result built with the default aperture (infinite),
since the source constructs Matrix(a,b,c,d,physicalLength=l) with no
apertureDiameter argument. -/
def Matrix.mul_matrix (self rightSideMatrix : Matrix) : Matrix :=
  { A := self.A * rightSideMatrix.A + self.B * rightSideMatrix.C
    B := self.A * rightSideMatrix.B + self.B * rightSideMatrix.D
    C := self.C * rightSideMatrix.A + self.D * rightSideMatrix.C
    D := self.C * rightSideMatrix.B + self.D * rightSideMatrix.D
    L := self.L + rightSideMatrix.L
    apertureDiameter := none }

/-- Matrix.mul_ray from the source: linear transform on (y, theta), z shifted
by the element length, and the blocked flag set when the height of the
incoming ray exceeds half the aperture of this element, otherwise inherited
from the incoming ray. The none branch models the float +Inf aperture, for
which abs y > inf / 2 is false. -/
def Matrix.mul_ray (self : Matrix) (rightSideRay : Ray) : Ray :=
  { y := self.A * rightSideRay.y + self.B * rightSideRay.theta
    theta := self.C * rightSideRay.y + self.D * rightSideRay.theta
    z := self.L + rightSideRay.z
    isBlocked :=
      match self.apertureDiameter with
      | none => rightSideRay.isBlocked
      | some d => if |rightSideRay.y| > d / 2 then true else rightSideRay.isBlocked }

/-- Possible right-hand operands of the overloaded multiply. otherOperand
stands for any Python value that is neither a Matrix nor a Ray. -/
inductive Operand where
  | matrixOperand (m : Matrix)
  | rayOperand (r : Ray)
  | otherOperand
deriving DecidableEq

/-- Result of the overloaded multiply. pyNone models the Python value None
that a function body without a return statement produces; raised models a
propagating exception, which the source body of the multiply never produces. -/
inductive MulResult where
  | matrixResult (m : Matrix)
  | rayResult (r : Ray)
  | pyNone
  | raised (e : PyError)
deriving DecidableEq

/-- Matrix.__mul__ from the source: dispatch on the runtime type of the right
side; for any other operand the source prints a diagnostic and falls off the
end of the function, returning None. -/
def Matrix.mul (self : Matrix) : Operand → MulResult
  | Operand.matrixOperand m => MulResult.matrixResult (self.mul_matrix m)
  | Operand.rayOperand r => MulResult.rayResult (self.mul_ray r)
  | Operand.otherOperand => MulResult.pyNone

/-- Lens constructor: A=1, B=0, C=-1/f, D=1, length 0, given aperture. -/
def Lens (f : ℚ) (diameter : Option ℚ) : Matrix :=
  { A := 1, B := 0, C := -1 / f, D := 1, L := 0, apertureDiameter := diameter }

/-- Space constructor: A=1, B=d, C=0, D=1, length d, infinite aperture. -/
def Space (d : ℚ) : Matrix :=
  { A := 1, B := d, C := 0, D := 1, L := d, apertureDiameter := none }

/-- Aperture constructor: identity coefficients, length 0, given aperture. -/
def Aperture (diameter : ℚ) : Matrix :=
  { A := 1, B := 0, C := 0, D := 1, L := 0, apertureDiameter := some diameter }

/-- The identity element Matrix(A=1, B=0, C=0, D=1) with default length 0 and
default (infinite) aperture, as built at the start of transferMatrix. -/
def identityMatrix : Matrix :=
  { A := 1, B := 0, C := 0, D := 1, L := 0, apertureDiameter := none }

/-- Determinant A*D - B*C of an element. -/
def Matrix.det (m : Matrix) : ℚ :=
  m.A * m.D - m.B * m.C

/-- Loop body of Ray.fan, iterated over the index list. Each iteration
computes radianMin + i*(radianMax-radianMin)/(N-1); when the divisor N-1 is
zero the division raises ZeroDivisionError, which aborts the whole call. -/
def Ray.fanAux (y radianMin radianMax : ℚ) (N : ℕ) : List ℕ → Except PyError (List Ray)
  | [] => Except.ok []
  | i :: rest =>
    if ((N : ℚ) - 1) = 0 then Except.error PyError.zeroDivisionError
    else
      match Ray.fanAux y radianMin radianMax N rest with
      | Except.error e => Except.error e
      | Except.ok rays =>
        Except.ok ({ y := y
                     theta := radianMin + (i : ℚ) * (radianMax - radianMin) / ((N : ℚ) - 1)
                     z := 0
                     isBlocked := false } :: rays)

/-- Ray.fan from the source: N rays at height y, z = 0, not blocked, angles
linearly spaced by theta_i = radianMin + i*(radianMax-radianMin)/(N-1). -/
def Ray.fan (y radianMin radianMax : ℚ) (N : ℕ) : Except PyError (List Ray) :=
  Ray.fanAux y radianMin radianMax N (List.range N)

/-- Inner loop of Ray.fanGroup for a fixed height index j: iterate the angle
index i, computing theta first (divisor N-1) and then y (divisor M-1), in the
order the source evaluates them. -/
def Ray.fanGroupInner (yMin yMax : ℚ) (M : ℕ) (radianMin radianMax : ℚ) (N : ℕ)
    (j : ℕ) : List ℕ → Except PyError (List Ray)
  | [] => Except.ok []
  | i :: rest =>
    if ((N : ℚ) - 1) = 0 then Except.error PyError.zeroDivisionError
    else if ((M : ℚ) - 1) = 0 then Except.error PyError.zeroDivisionError
    else
      match Ray.fanGroupInner yMin yMax M radianMin radianMax N j rest with
      | Except.error e => Except.error e
      | Except.ok rays =>
        Except.ok ({ y := yMin + (j : ℚ) * (yMax - yMin) / ((M : ℚ) - 1)
                     theta := radianMin + (i : ℚ) * (radianMax - radianMin) / ((N : ℚ) - 1)
                     z := 0
                     isBlocked := false } :: rays)

/-- Outer loop of Ray.fanGroup over the height index j. -/
def Ray.fanGroupOuter (yMin yMax : ℚ) (M : ℕ) (radianMin radianMax : ℚ) (N : ℕ) :
    List ℕ → Except PyError (List Ray)
  | [] => Except.ok []
  | j :: rest =>
    match Ray.fanGroupInner yMin yMax M radianMin radianMax N j (List.range N) with
    | Except.error e => Except.error e
    | Except.ok rays =>
      match Ray.fanGroupOuter yMin yMax M radianMin radianMax N rest with
      | Except.error e => Except.error e
      | Except.ok more => Except.ok (rays ++ more)

/-- Ray.fanGroup from the source: M fans of N rays each, heights linearly
spaced from yMin to yMax, grouped by height. -/
def Ray.fanGroup (yMin yMax : ℚ) (M : ℕ) (radianMin radianMax : ℚ) (N : ℕ) :
    Except PyError (List Ray) :=
  Ray.fanGroupOuter yMin yMax M radianMin radianMax N (List.range M)

/-- True exactly when the call raised an exception. -/
def isErr {α : Type} : Except PyError α → Bool
  | Except.error _ => true
  | Except.ok _ => false

/-- OpticalPath.transferMatrix from the source: start from the identity
element and fold each element of the path, in order, as the left operand of
the running product. -/
def OpticalPath.transferMatrix (elements : List Matrix) : Matrix :=
  elements.foldl (fun acc element => element.mul_matrix acc) identityMatrix

/-- OpticalPath.propagate from the source: the trace starting with the input
ray followed by the ray state after each element, in path order. -/
def OpticalPath.propagate (elements : List Matrix) (inputRay : Ray) : List Ray :=
  match elements with
  | [] => [inputRay]
  | element :: rest => inputRay :: OpticalPath.propagate rest (element.mul_ray inputRay)

/-- Elements built by the lens, space and aperture constructors (a lens needs
a nonzero focal length, since Lens(0) raises ZeroDivisionError in the
source), closed under composition. -/
inductive IsPhysical : Matrix → Prop
  | lens (f : ℚ) (d : Option ℚ) (hf : f ≠ 0) : IsPhysical (Lens f d)
  | space (d : ℚ) : IsPhysical (Space d)
  | aperture (d : ℚ) : IsPhysical (Aperture d)
  | compose (m1 m2 : Matrix) (h1 : IsPhysical m1) (h2 : IsPhysical m2) :
      IsPhysical (m1.mul_matrix m2)

/-- Claim C1: for an element with coefficients A, B, C, D, length L and a
finite aperture diameter a, transforming a ray gives y = A*y + B*theta,
theta = C*y + D*theta, z = L + z, and the blocked flag is true when the
height of the incoming ray exceeds a/2 in absolute value, otherwise the flag
of the incoming ray. -/
theorem claim_C1_transform (A B C D L a : ℚ) (r : Ray) :
    Matrix.mul_ray { A := A, B := B, C := C, D := D, L := L, apertureDiameter := some a } r =
      { y := A * r.y + B * r.theta
        theta := C * r.y + D * r.theta
        z := L + r.z
        isBlocked := if |r.y| > a / 2 then true else r.isBlocked } := rfl

/-- Claim C3: composition multiplies the 2 by 2 matrices with self as the
left (applied second) factor, adds the physical lengths, and yields the
default infinite aperture: apertures are never propagated by composition. -/
theorem claim_C3_compose (m1 m2 : Matrix) :
    m1.mul_matrix m2 =
      { A := m1.A * m2.A + m1.B * m2.C
        B := m1.A * m2.B + m1.B * m2.D
        C := m1.C * m2.A + m1.D * m2.C
        D := m1.C * m2.B + m1.D * m2.D
        L := m1.L + m2.L
        apertureDiameter := none } := rfl

/-- Claim C6: composing any element with the identity element on either side
leaves A, B, C, D and L unchanged; the operand itself, aperture included, is
never modified since composition is a pure function. -/
theorem claim_C6_identity (m : Matrix) :
    (identityMatrix.mul_matrix m).A = m.A ∧ (identityMatrix.mul_matrix m).B = m.B ∧
    (identityMatrix.mul_matrix m).C = m.C ∧ (identityMatrix.mul_matrix m).D = m.D ∧
    (identityMatrix.mul_matrix m).L = m.L ∧
    (m.mul_matrix identityMatrix).A = m.A ∧ (m.mul_matrix identityMatrix).B = m.B ∧
    (m.mul_matrix identityMatrix).C = m.C ∧ (m.mul_matrix identityMatrix).D = m.D ∧
    (m.mul_matrix identityMatrix).L = m.L := by
  simp [Matrix.mul_matrix, identityMatrix]

/-- Claim C8 counterexample: multiplying the identity element by an operand
that is neither an element nor a ray returns the Python value None, not a
raised UnsupportedOperandError. -/
theorem claim_C8_counterexample :
    Matrix.mul identityMatrix Operand.otherOperand = MulResult.pyNone ∧
    Matrix.mul identityMatrix Operand.otherOperand ≠
      MulResult.raised PyError.unsupportedOperandError := by
  exact ⟨rfl, by decide⟩

/-- Claim C8 amended: for every element, multiplying by an operand that is
neither an element nor a ray prints a diagnostic and returns None; no
exception is raised. -/
theorem claim_C8_amended (self : Matrix) :
    Matrix.mul self Operand.otherOperand = MulResult.pyNone := rfl

/-- Equation lemma: propagating through an empty path yields the one-state
trace. -/
theorem propagate_nil (r : Ray) : OpticalPath.propagate [] r = [r] := rfl

/-- Equation lemma: propagating through a nonempty path prepends the input
ray to the trace of the rest from the transformed ray. -/
theorem propagate_cons (e : Matrix) (rest : List Matrix) (r : Ray) :
    OpticalPath.propagate (e :: rest) r = r :: OpticalPath.propagate rest (e.mul_ray r) := rfl

/-- A ray that enters an element already blocked leaves it blocked. -/
theorem mul_ray_blocked_of_blocked (m : Matrix) (r : Ray) (h : r.isBlocked = true) :
    (m.mul_ray r).isBlocked = true := by
  simp only [Matrix.mul_ray]
  cases m.apertureDiameter with
  | none => exact h
  | some d =>
    by_cases hc : |r.y| > d / 2 <;> simp [hc, h]

/-- Every state of a trace that starts from a blocked ray is blocked. -/
theorem propagate_all_blocked :
    ∀ (es : List Matrix) (r : Ray), r.isBlocked = true →
      ∀ x ∈ OpticalPath.propagate es r, x.isBlocked = true := by
  intro es
  induction es with
  | nil =>
    intro r h x hx
    rw [propagate_nil] at hx
    simp only [List.mem_singleton] at hx
    subst hx
    exact h
  | cons e rest ih =>
    intro r h x hx
    rw [propagate_cons] at hx
    rcases List.mem_cons.mp hx with rfl | hx2
    · exact h
    · exact ih (e.mul_ray r) (mul_ray_blocked_of_blocked e r h) x hx2

/-- Along a trace, the blocked flag is monotone in the index. -/
theorem propagate_blocked_mono :
    ∀ (es : List Matrix) (r : Ray) (i j : ℕ) (ri rj : Ray), i ≤ j →
      (OpticalPath.propagate es r)[i]? = some ri →
      (OpticalPath.propagate es r)[j]? = some rj →
      ri.isBlocked = true → rj.isBlocked = true := by
  intro es
  induction es with
  | nil =>
    intro r i j ri rj hij hi hj hblk
    rw [propagate_nil] at hi hj
    cases i with
    | zero =>
      cases j with
      | zero =>
        simp only [List.getElem?_cons_zero, Option.some.injEq] at hi hj
        subst hi; subst hj; exact hblk
      | succ j0 => simp at hj
    | succ i0 => simp at hi
  | cons e rest ih =>
    intro r i j ri rj hij hi hj hblk
    rw [propagate_cons] at hi hj
    cases i with
    | zero =>
      simp only [List.getElem?_cons_zero, Option.some.injEq] at hi
      subst hi
      cases j with
      | zero =>
        simp only [List.getElem?_cons_zero, Option.some.injEq] at hj
        subst hj; exact hblk
      | succ j0 =>
        simp only [List.getElem?_cons_succ] at hj
        have hb : (e.mul_ray r).isBlocked = true := mul_ray_blocked_of_blocked e r hblk
        have hmem : rj ∈ OpticalPath.propagate rest (e.mul_ray r) := List.getElem?_mem hj
        exact propagate_all_blocked rest (e.mul_ray r) hb rj hmem
    | succ i0 =>
      cases j with
      | zero => omega
      | succ j0 =>
        simp only [List.getElem?_cons_succ] at hi hj
        exact ih (e.mul_ray r) i0 j0 ri rj (by omega) hi hj hblk

/-- Claim C2: blocking is sticky: an already blocked ray stays blocked
through any element, and along any trace produced by propagate, once a state
is blocked every later state is blocked. -/
theorem claim_C2_sticky :
    (∀ (m : Matrix) (r : Ray), r.isBlocked = true → (m.mul_ray r).isBlocked = true) ∧
    (∀ (es : List Matrix) (r : Ray) (i j : ℕ) (ri rj : Ray), i ≤ j →
      (OpticalPath.propagate es r)[i]? = some ri →
      (OpticalPath.propagate es r)[j]? = some rj →
      ri.isBlocked = true → rj.isBlocked = true) :=
  ⟨mul_ray_blocked_of_blocked, propagate_blocked_mono⟩

/-- Claim C2 witness: a blocked ray entering a unit aperture stays blocked,
and in the trace of a blocked ray through one space element the later state
is blocked. -/
theorem claim_C2_sticky_witness :
    ((Aperture 1).mul_ray { y := 0, theta := 0, z := 0, isBlocked := true }).isBlocked = true ∧
    ({ y := 0, theta := 0, z := 1, isBlocked := true } : Ray).isBlocked = true :=
  ⟨claim_C2_sticky.1 (Aperture 1) { y := 0, theta := 0, z := 0, isBlocked := true } rfl,
   claim_C2_sticky.2 [Space 1] { y := 0, theta := 0, z := 0, isBlocked := true } 0 1
     { y := 0, theta := 0, z := 0, isBlocked := true }
     { y := 0, theta := 0, z := 1, isBlocked := true }
     (by decide)
     (by rw [propagate_cons, List.getElem?_cons_zero])
     (by
       rw [propagate_cons, propagate_nil, List.getElem?_cons_succ, List.getElem?_cons_zero,
         Option.some.injEq]
       simp [Matrix.mul_ray, Space])
     rfl⟩

/-- The trace always starts with the input ray. -/
theorem propagate_getElem_zero (es : List Matrix) (r : Ray) :
    (OpticalPath.propagate es r)[0]? = some r := by
  cases es with
  | nil => rw [propagate_nil, List.getElem?_cons_zero]
  | cons e rest => rw [propagate_cons, List.getElem?_cons_zero]

/-- The trace has one more state than the path has elements. -/
theorem propagate_length :
    ∀ (es : List Matrix) (r : Ray), (OpticalPath.propagate es r).length = es.length + 1 := by
  intro es
  induction es with
  | nil => intro r; rfl
  | cons e rest ih =>
    intro r
    rw [propagate_cons, List.length_cons, ih (e.mul_ray r), List.length_cons]

/-- Each state of the trace past the first is the transform of the previous
state by the corresponding element of the path. -/
theorem propagate_step :
    ∀ (es : List Matrix) (r : Ray) (i : ℕ) (e : Matrix) (prev : Ray),
      es[i]? = some e → (OpticalPath.propagate es r)[i]? = some prev →
      (OpticalPath.propagate es r)[i + 1]? = some (e.mul_ray prev) := by
  intro es
  induction es with
  | nil => intro r i e prev he; simp at he
  | cons e0 rest ih =>
    intro r i e prev he hp
    cases i with
    | zero =>
      simp only [List.getElem?_cons_zero, Option.some.injEq] at he
      rw [propagate_cons, List.getElem?_cons_zero, Option.some.injEq] at hp
      subst he; subst hp
      rw [propagate_cons, List.getElem?_cons_succ]
      exact propagate_getElem_zero rest (e0.mul_ray r)
    | succ i0 =>
      simp only [List.getElem?_cons_succ] at he
      rw [propagate_cons, List.getElem?_cons_succ] at hp
      rw [propagate_cons, List.getElem?_cons_succ]
      exact ih (e0.mul_ray r) i0 e prev he hp

/-- Claim C4: propagate returns the trace of length n+1 starting with the
input ray, each later state being the transform of the previous one by the
corresponding element, applied in append order and regardless of the blocked
flag of the intermediate state. -/
theorem claim_C4_propagate (es : List Matrix) (r : Ray) :
    (OpticalPath.propagate es r).length = es.length + 1 ∧
    (OpticalPath.propagate es r)[0]? = some r ∧
    ∀ (i : ℕ) (e : Matrix) (prev : Ray), es[i]? = some e →
      (OpticalPath.propagate es r)[i]? = some prev →
      (OpticalPath.propagate es r)[i + 1]? = some (e.mul_ray prev) :=
  ⟨propagate_length es r, propagate_getElem_zero es r, propagate_step es r⟩

/-- Claim C4 witness: through a single aperture of diameter 2, the state
after the element is the transform of the input ray, even though the input
height 1.5 blocks the ray there. -/
theorem claim_C4_propagate_witness :
    (OpticalPath.propagate [Aperture 2]
        { y := 3 / 2, theta := 0, z := 0, isBlocked := false })[0 + 1]? =
      some ((Aperture 2).mul_ray { y := 3 / 2, theta := 0, z := 0, isBlocked := false }) :=
  (claim_C4_propagate [Aperture 2] { y := 3 / 2, theta := 0, z := 0, isBlocked := false }).2.2
    0 (Aperture 2) { y := 3 / 2, theta := 0, z := 0, isBlocked := false } rfl rfl

/-- Determinants multiply under composition. -/
theorem det_mul_matrix (m1 m2 : Matrix) :
    (m1.mul_matrix m2).det = m1.det * m2.det := by
  simp only [Matrix.det, Matrix.mul_matrix]
  ring

/-- Every element built from the physical constructors, closed under
composition, has determinant one. -/
theorem det_physical (m : Matrix) (h : IsPhysical m) : m.det = 1 := by
  induction h with
  | lens f d hf => simp [Matrix.det, Lens]
  | space d => simp [Matrix.det, Space]
  | aperture d => simp [Matrix.det, Aperture]
  | compose m1 m2 h1 h2 ih1 ih2 => rw [det_mul_matrix, ih1, ih2, one_mul]

/-- Folding composition over determinant-one elements preserves a
determinant-one accumulator. -/
theorem det_foldl :
    ∀ (es : List Matrix) (acc : Matrix), (∀ e ∈ es, IsPhysical e) → acc.det = 1 →
      (es.foldl (fun a e => e.mul_matrix a) acc).det = 1 := by
  intro es
  induction es with
  | nil => intro acc _ hacc; exact hacc
  | cons e rest ih =>
    intro acc h hacc
    rw [List.foldl_cons]
    apply ih (e.mul_matrix acc)
    · intro x hx; exact h x (List.mem_cons_of_mem e hx)
    · rw [det_mul_matrix, det_physical e (h e (List.mem_cons_self e rest)), hacc, one_mul]

/-- Claim C5: every element built by the lens, space and aperture
constructors and closed under composition has determinant A*D - B*C equal to
one, and so does the end-to-end transfer matrix of any path of such
elements. -/
theorem claim_C5_det :
    (∀ m : Matrix, IsPhysical m → m.det = 1) ∧
    (∀ es : List Matrix, (∀ e ∈ es, IsPhysical e) →
      (OpticalPath.transferMatrix es).det = 1) := by
  refine ⟨det_physical, ?_⟩
  intro es h
  exact det_foldl es identityMatrix h (by simp [Matrix.det, identityMatrix])

/-- Claim C5 witness: a lens of focal length 5 has determinant one, and so
does the transfer matrix of the path made of a space of length 10 followed
by that lens. -/
theorem claim_C5_det_witness :
    (Lens 5 none).det = 1 ∧
    (OpticalPath.transferMatrix [Space 10, Lens 5 none]).det = 1 :=
  ⟨claim_C5_det.1 (Lens 5 none) (IsPhysical.lens 5 none (by norm_num)),
   claim_C5_det.2 [Space 10, Lens 5 none] (by
     intro e he
     simp only [List.mem_cons, List.not_mem_nil, or_false] at he
     rcases he with rfl | rfl
     · exact IsPhysical.space 10
     · exact IsPhysical.lens 5 none (by norm_num))⟩

/-- When the divisor N-1 is nonzero, the fan loop succeeds and maps the
linear-spacing formula over the index list. -/
theorem fanAux_ok (y a b : ℚ) (N : ℕ) (hd : ((N : ℚ) - 1) ≠ 0) :
    ∀ l : List ℕ, Ray.fanAux y a b N l =
      Except.ok (l.map fun i =>
        { y := y
          theta := a + (i : ℚ) * (b - a) / ((N : ℚ) - 1)
          z := 0
          isBlocked := false }) := by
  intro l
  induction l with
  | nil => rfl
  | cons i rest ih => simp [Ray.fanAux, hd, ih]

/-- Claim C7: for a count of at least two, fan returns exactly count rays in
order, all at the given height, at z = 0 and not blocked, with angles
linearly spaced by theta_i = radianMin + i*(radianMax-radianMin)/(count-1),
both endpoints included. -/
theorem claim_C7_fan (y radianMin radianMax : ℚ) (N : ℕ)
    (_hangle : radianMin ≤ radianMax) (hN : 2 ≤ N) :
    Ray.fan y radianMin radianMax N =
      Except.ok ((List.range N).map fun i =>
        { y := y
          theta := radianMin + (i : ℚ) * (radianMax - radianMin) / ((N : ℚ) - 1)
          z := 0
          isBlocked := false }) := by
  have hd : ((N : ℚ) - 1) ≠ 0 := by
    intro h0
    have h1 : (N : ℚ) = 1 := by linarith
    have h2 : N = 1 := by exact_mod_cast h1
    omega
  exact fanAux_ok y radianMin radianMax N hd (List.range N)

/-- Claim C7 witness: fan at height 1 from -0.1 to 0.1 with five rays yields
angles -1/10, -1/20, 0, 1/20, 1/10, all at height 1, z = 0, not blocked. -/
theorem claim_C7_fan_witness :
    Ray.fan 1 (-(1 / 10)) (1 / 10) 5 =
      Except.ok
        [{ y := 1, theta := -(1 / 10), z := 0, isBlocked := false },
         { y := 1, theta := -(1 / 20), z := 0, isBlocked := false },
         { y := 1, theta := 0, z := 0, isBlocked := false },
         { y := 1, theta := 1 / 20, z := 0, isBlocked := false },
         { y := 1, theta := 1 / 10, z := 0, isBlocked := false }] := by
  rw [claim_C7_fan 1 (-(1 / 10)) (1 / 10) 5 (by norm_num) (by norm_num)]
  norm_num [List.range_succ]

/-- Claim C9: evaluating the source at a degenerate count. fan with count 1
raises a raw ZeroDivisionError from the divisor count-1, and so does
fanGroup with height count 1; no DegenerateFanError is ever produced, since
the source never defines or raises one. -/
theorem claim_C9_division_fault :
    Ray.fan 0 0 1 1 = Except.error PyError.zeroDivisionError ∧
    Ray.fanGroup 0 1 1 0 1 2 = Except.error PyError.zeroDivisionError := by
  constructor
  · show Ray.fanAux 0 0 1 1 (List.range 1) = Except.error PyError.zeroDivisionError
    rw [show List.range 1 = [0] from rfl]
    rw [Ray.fanAux, if_pos (by norm_num)]
  · show Ray.fanGroupOuter 0 1 1 0 1 2 (List.range 1) =
      Except.error PyError.zeroDivisionError
    rw [show List.range 1 = [0] from rfl]
    rw [Ray.fanGroupOuter]
    have hinner : Ray.fanGroupInner 0 1 1 0 1 2 0 (List.range 2) =
        Except.error PyError.zeroDivisionError := by
      rw [show List.range 2 = [0, 1] by rfl]
      rw [Ray.fanGroupInner, if_neg (by norm_num), if_pos (by norm_num)]
    rw [hinner]

/-- The fan loop raises ZeroDivisionError on a nonempty index list whenever
the divisor N-1 is zero. -/
theorem fanAux_error (y a b : ℚ) (N : ℕ) (hd : ((N : ℚ) - 1) = 0)
    (i : ℕ) (rest : List ℕ) :
    Ray.fanAux y a b N (i :: rest) = Except.error PyError.zeroDivisionError := by
  rw [Ray.fanAux, if_pos hd]

/-- Claim C10: fan with count 0 returns the empty list with no error, the
division fault happens exactly at count 1, and fanGroup with height count 0
returns the empty list with no error for every angle count. -/
theorem claim_C10_degenerate_counts :
    (∀ y a b : ℚ, Ray.fan y a b 0 = Except.ok []) ∧
    (∀ (y a b : ℚ) (N : ℕ), isErr (Ray.fan y a b N) = true ↔ N = 1) ∧
    (∀ (yMin yMax a b : ℚ) (N : ℕ), Ray.fanGroup yMin yMax 0 a b N = Except.ok []) := by
  refine ⟨fun y a b => rfl, ?_, fun yMin yMax a b N => rfl⟩
  intro y a b N
  constructor
  · intro herr
    by_contra hne
    have hd : ((N : ℚ) - 1) ≠ 0 := by
      intro h0
      have h1 : (N : ℚ) = 1 := by linarith
      have h2 : N = 1 := by exact_mod_cast h1
      exact hne h2
    rw [Ray.fan, fanAux_ok y a b N hd (List.range N)] at herr
    simp [isErr] at herr
  · intro hN
    subst hN
    rw [Ray.fan, show List.range 1 = [0] from rfl, fanAux_error y a b 1 (by norm_num) 0 []]
    rfl

end ABCD
